import Mathlib

/-!
Shallow embedding of the conversation-orchestration core of a Telegram
assistant bot (sphere routing, onboarding state machine, context assembly,
summarization policy), together with theorems checking the natural-language
specification against it.

Conventions of the embedding:
* machine integers are `Int`/`Nat`; database `Integer` columns are `Int`
  (Telegram chat ids may be negative) or `Nat` for autoincrement keys;
* SQL `NULL`-able columns are `Option _`; Python truthiness of optional
  values is modelled explicitly (`None`, `0` and `""` are falsy);
* the `messages` table is a list held in primary-key (insertion) order, so
  `ORDER BY id DESC` is `List.reverse`;
* timestamps (`created_at`) are `Nat`;
* the external generation capability is a function parameter returning
  `Option` (`none` = backend failure);
* JSON-string columns holding structured data (`onboarding_answers`) are
  modelled by the structured value they encode;
* template rendering (jinja2) is out of scope; the context payload handed
  to the template is modelled as a structure.
-/

namespace Sborka

/-- Python truthiness of an `Optional[int]`: `None` and `0` are falsy. -/
def truthyOptInt : Option Int → Bool
  | none => false
  | some n => n != 0

/-- Python truthiness of an `Optional[str]`: `None` and `""` are falsy. -/
def truthyOptStr : Option String → Bool
  | none => false
  | some s => s != ""

/-- One character of Python `str.lower()`, restricted to the alphabets the
keyword table uses: ASCII `A`-`Z` and Cyrillic `А`-`Я` map down by 0x20,
`Ё` maps to `ё`, everything else is unchanged. -/
def pyLowerChar (c : Char) : Char :=
  if 0x41 ≤ c.toNat ∧ c.toNat ≤ 0x5A then Char.ofNat (c.toNat + 0x20)
  else if 0x410 ≤ c.toNat ∧ c.toNat ≤ 0x42F then Char.ofNat (c.toNat + 0x20)
  else if c.toNat = 0x401 then Char.ofNat 0x451
  else c

/-- Python `str.lower()` on a whole string. -/
def pyLower (s : String) : String := ⟨s.data.map pyLowerChar⟩

/-- `needle` occurs at the start of `hay` (character lists). -/
def subAt : List Char → List Char → Bool
  | [], _ => true
  | _ :: _, [] => false
  | a :: as, b :: bs => a == b && subAt as bs

/-- `needle` occurs somewhere in `hay` (character lists). -/
def hasSub (needle : List Char) : List Char → Bool
  | [] => needle.isEmpty
  | b :: bs => subAt needle (b :: bs) || hasSub needle bs

/-- Python's `needle in hay` on strings. -/
def pyIn (needle hay : String) : Bool := hasSub needle.data hay.data

/-- `bot/utils/helpers.py::detect_sphere_from_topic`: detect the sphere from
a topic name by case-insensitive substring match against the fixed keyword
table `душа→soul, дело→business, тело→body, штаб→center` (dict insertion
order, first match wins); `None` and the empty string yield `none`. -/
def detect_sphere_from_topic (topic_name : Option String) : Option String :=
  match topic_name with
  | none => none
  | some name =>
    if name = "" then none
    else
      let topic_lower := pyLower name
      if pyIn "душа" topic_lower then some "soul"
      else if pyIn "дело" topic_lower then some "business"
      else if pyIn "тело" topic_lower then some "body"
      else if pyIn "штаб" topic_lower then some "center"
      else none

/-- One recorded onboarding answer (`bot/handlers/onboarding.py` stores the
list JSON-encoded in `users.onboarding_answers`). -/
structure AnswerEntry where
  question_index : Nat
  answer : String
deriving DecidableEq, Repr

/-- A row of the `users` table (`bot/database/models.py::User`), restricted
to the columns the orchestration core reads or writes. -/
structure User where
  id : Nat
  telegram_id : Int
  is_onboarding : Bool
  onboarding_step : Nat
  onboarding_answers : List AnswerEntry
  psychotype : Option String
  recommended_center : Option String
  recommended_business : Option String
  recommended_soul : Option String
  recommended_body : Option String
  selected_center : Option String
  selected_business : Option String
  selected_soul : Option String
  selected_body : Option String
  chat_id : Option Int
  thread_soul : Option Int
  thread_body : Option Int
  thread_business : Option Int
  thread_center : Option Int
deriving DecidableEq, Repr

/-- A row of the `messages` table (`bot/database/models.py::Message`).
`sphere` and `role` are stored as strings, exactly as in the schema. -/
structure Message where
  id : Nat
  user_id : Nat
  sphere : String
  role : String
  content : String
  created_at : Nat
deriving DecidableEq, Repr

/-- A row of the `summarizations` table
(`bot/database/models.py::Summarization`). -/
structure Summarization where
  id : Nat
  user_id : Nat
  sphere : String
  text : String
  created_at : Nat
deriving DecidableEq, Repr

/-- `bot/utils/helpers.py::update_user_thread`: record that `thread_id` in
chat `chat_id` belongs to `sphere` for this user.  Sets `chat_id` and the
one thread column named by `sphere`; other thread columns are untouched. -/
def update_user_thread (user : User) (sphere : String) (thread_id : Int) (chat_id : Int) : User :=
  let u := { user with chat_id := some chat_id }
  if sphere == "soul" then { u with thread_soul := some thread_id }
  else if sphere == "body" then { u with thread_body := some thread_id }
  else if sphere == "business" then { u with thread_business := some thread_id }
  else if sphere == "center" then { u with thread_center := some thread_id }
  else u

/-- `bot/utils/helpers.py::get_sphere_by_thread`: the sphere bound to
`thread_id` for this user, `none` when the stored chat id differs from
`chat_id`.  The comparison is Python `==` on optional ints (`None == None`
is true) in the fixed order soul, body, business, center. -/
def get_sphere_by_thread (user : User) (chat_id : Int) (thread_id : Option Int) : Option String :=
  if user.chat_id != some chat_id then none
  else if thread_id == user.thread_soul then some "soul"
  else if thread_id == user.thread_body then some "body"
  else if thread_id == user.thread_business then some "business"
  else if thread_id == user.thread_center then some "center"
  else none

/-- The thread column of `users` that belongs to `sphere` (the column
`update_user_thread` writes and `get_sphere_by_thread` reads for it). -/
def threadField (user : User) (sphere : String) : Option Int :=
  if sphere == "soul" then user.thread_soul
  else if sphere == "body" then user.thread_body
  else if sphere == "business" then user.thread_business
  else if sphere == "center" then user.thread_center
  else none

/-! ## Summarization service (`bot/services/summarization_service.py`) -/

/-- `SummarizationService.FIRST_SUMMARIZATION_THRESHOLD`. -/
def FIRST_SUMMARIZATION_THRESHOLD : Nat := 3

/-- `SummarizationService.REGULAR_SUMMARIZATION_THRESHOLD`. -/
def REGULAR_SUMMARIZATION_THRESHOLD : Nat := 10

/-- The `WHERE user_id = ... AND sphere = ...` clause on `summarizations`,
shared by every summarization query. -/
def summariesFor (sums : List Summarization) (user_id : Nat) (sphere : String) : List Summarization :=
  sums.filter (fun s => s.user_id == user_id && s.sphere == sphere)

/-- The `WHERE user_id = ... AND sphere = ...` clause on `messages`,
shared by every message query. -/
def messagesFor (msgs : List Message) (user_id : Nat) (sphere : String) : List Message :=
  msgs.filter (fun m => m.user_id == user_id && m.sphere == sphere)

/-- The step of `ORDER BY created_at DESC ... first()` folded over a list:
keep the row with the larger `created_at`, the earlier row on ties. -/
def laterSummarization (acc : Option Summarization) (s : Summarization) : Option Summarization :=
  match acc with
  | none => some s
  | some b => if s.created_at > b.created_at then some s else some b

/-- `SummarizationService._get_last_summarization`: the summarization row
for `(user_id, sphere)` with the greatest `created_at`, if any. -/
def lastSummarization (sums : List Summarization) (user_id : Nat) (sphere : String) : Option Summarization :=
  (summariesFor sums user_id sphere).foldl laterSummarization none

/-- `SummarizationService._get_messages_since_last_summarization`: all
messages of `(user_id, sphere)` with `created_at` strictly after the last
summarization's, or all of them when none exists (chronological order). -/
def messagesSinceLastSummarization (msgs : List Message) (sums : List Summarization)
    (user_id : Nat) (sphere : String) : List Message :=
  match lastSummarization sums user_id sphere with
  | none => messagesFor msgs user_id sphere
  | some last => (messagesFor msgs user_id sphere).filter (fun m => decide (m.created_at > last.created_at))

/-- `SummarizationService.should_summarize`: count the `role="user"`
messages since the last summarization; trigger at the regular threshold
when a summarization exists, at the first threshold otherwise. -/
def should_summarize (msgs : List Message) (sums : List Summarization)
    (user_id : Nat) (sphere : String) : Bool :=
  let count := ((messagesSinceLastSummarization msgs sums user_id sphere).filter
    (fun m => m.role == "user")).length
  let has_previous := (lastSummarization sums user_id sphere).isSome
  if has_previous then decide (count ≥ REGULAR_SUMMARIZATION_THRESHOLD)
  else decide (count ≥ FIRST_SUMMARIZATION_THRESHOLD)

/-- Spec side, C1: the fold computing the greatest `created_at` of a list
of summarizations. -/
def maxStep (acc : Option Nat) (s : Summarization) : Option Nat :=
  match acc with
  | none => some s.created_at
  | some x => some (max x s.created_at)

/-- Spec side, C1/C7: the greatest `created_at` among a list of
summarizations ("the latest existing Summary's `created_at`"). -/
def maxCreatedAt (l : List Summarization) : Option Nat := l.foldl maxStep none

/-- Spec side, C1: `created_at` is strictly after the latest existing
Summary for `(user_id, sphere)` — vacuously true when none exists. -/
def specAfterLatest (sums : List Summarization) (user_id : Nat) (sphere : String)
    (m : Message) : Bool :=
  match maxCreatedAt (summariesFor sums user_id sphere) with
  | none => true
  | some t => decide (m.created_at > t)

/-- Spec side, C1: the number of `role="user"` messages of
`(user_id, sphere)` created strictly after the latest existing Summary
(all of them when no Summary exists). -/
def specUnsummarizedUserCount (msgs : List Message) (sums : List Summarization)
    (user_id : Nat) (sphere : String) : Nat :=
  ((messagesFor msgs user_id sphere).filter
    (fun m => m.role == "user" && specAfterLatest sums user_id sphere m)).length

/-! ## Context assembly (`bot/utils/helpers.py`) -/

/-- `bot/utils/helpers.py::get_last_messages`: `ORDER BY id DESC LIMIT n`
then reversed back to chronological order.  `msgs` is held in id order, so
descending order is its reverse. -/
def get_last_messages (msgs : List Message) (user_id : Nat) (sphere : String)
    (limit : Nat) : List Message :=
  (((messagesFor msgs user_id sphere).reverse).take limit).reverse

/-- `bot/utils/helpers.py::get_last_summarization_text`: the text of the
latest summarization for the sphere, or the sentinel `"no data"`. -/
def get_last_summarization_text (sums : List Summarization) (user_id : Nat)
    (sphere : String) : String :=
  match lastSummarization sums user_id sphere with
  | some s => s.text
  | none => "no data"

/-- One line of rendered history: `"User: ..."` or `"Assistant: ..."`. -/
def renderMessage (m : Message) : String :=
  (if m.role == "user" then "User" else "Assistant") ++ ": " ++ m.content

/-- The data `bot/utils/helpers.py::build_sphere_prompt` substitutes into
the curator template (the jinja2 rendering itself is out of scope). -/
structure ContextPayload where
  sumSoul : String
  sumBody : String
  sumBusiness : String
  history : String
deriving DecidableEq, Repr

/-- `bot/utils/helpers.py::build_sphere_prompt`, up to template rendering:
latest summarization text of the three non-center spheres, and the last 10
messages of the active sphere rendered one per line (`"no data"` when the
sphere has no messages). -/
def build_sphere_payload (msgs : List Message) (sums : List Summarization)
    (user_id : Nat) (sphere : String) : ContextPayload :=
  let sum_soul := get_last_summarization_text sums user_id "soul"
  let sum_body := get_last_summarization_text sums user_id "body"
  let sum_business := get_last_summarization_text sums user_id "business"
  let messages := get_last_messages msgs user_id sphere 10
  let history_lines := messages.map renderMessage
  let history := if history_lines.isEmpty then "no data"
    else String.intercalate "\n" history_lines
  ⟨sum_soul, sum_body, sum_business, history⟩

/-! ## Onboarding (`bot/handlers/onboarding.py`) -/

/-- Outcome of `OnboardingHandler.handle_answer` as seen by the user. -/
inductive AnswerOutcome where
  /-- no `users` row for this telegram id: error reply, nothing stored -/
  | userNotFound
  /-- `is_onboarding` is false: "Вы уже прошли тест" reply, nothing stored -/
  | notInOnboarding
  /-- the answer was appended and the step advanced; `completes` holds when
  the new step reached the question count and completion is triggered -/
  | recorded (next_step : Nat) (completes : Bool)
deriving DecidableEq, Repr

/-- `OnboardingHandler.handle_answer`: look the user up, reject when not
onboarding, otherwise append `{question_index, answer}` to the stored
answers and advance `onboarding_step`; completion is triggered when the new
step reaches `questions_count`.  Returns the stored user row afterwards and
the outcome. -/
def handle_answer (questions_count : Nat) (user : Option User) (answer : String) :
    Option User × AnswerOutcome :=
  match user with
  | none => (none, .userNotFound)
  | some u =>
    if !u.is_onboarding then (some u, .notInOnboarding)
    else
      let current_step := u.onboarding_step
      let answers := u.onboarding_answers ++ [⟨current_step, answer⟩]
      let u2 := { u with onboarding_answers := answers, onboarding_step := current_step + 1 }
      (some u2, .recorded (current_step + 1) (decide (current_step + 1 ≥ questions_count)))

/-- `OnboardingHandler._complete_onboarding`, pure core: under the skip
flag substitute the hardcoded psychotype and `vibe` recommendations,
otherwise use the AI outputs; validate that all four sphere keys are
present (raising `ValueError` on the first missing one, before any write);
on success store psychotype, `recommended_*` and `selected_*` (equal) and
clear `is_onboarding`. -/
def completeOnboarding (skip_flag : Bool) (ai_psychotype : String)
    (ai_recommendations : List (String × String)) (user : User) : Except String User :=
  let psychotype_result := if skip_flag then "Обыкновенный человек" else ai_psychotype
  let recommendations :=
    if skip_flag then [("center", "vibe"), ("business", "vibe"), ("soul", "vibe"), ("body", "vibe")]
    else ai_recommendations
  if (recommendations.lookup "center").isNone then
    .error "Missing required field in recommendations: center"
  else if (recommendations.lookup "business").isNone then
    .error "Missing required field in recommendations: business"
  else if (recommendations.lookup "soul").isNone then
    .error "Missing required field in recommendations: soul"
  else if (recommendations.lookup "body").isNone then
    .error "Missing required field in recommendations: body"
  else
    .ok { user with
      psychotype := some psychotype_result,
      recommended_center := recommendations.lookup "center",
      recommended_business := recommendations.lookup "business",
      recommended_soul := recommendations.lookup "soul",
      recommended_body := recommendations.lookup "body",
      selected_center := recommendations.lookup "center",
      selected_business := recommendations.lookup "business",
      selected_soul := recommendations.lookup "soul",
      selected_body := recommendations.lookup "body",
      is_onboarding := false }

/-- `OnboardingHandler._complete_onboarding` including its `except` branch:
the raised `ValueError` is caught, an error reply is sent and the stored
user row is left untouched.  Returns the stored row and the error message,
if any. -/
def completeOnboardingRun (skip_flag : Bool) (ai_psychotype : String)
    (ai_recommendations : List (String × String)) (user : User) : User × Option String :=
  match completeOnboarding skip_flag ai_psychotype ai_recommendations user with
  | .ok u2 => (u2, none)
  | .error e => (user, some e)

/-! ## Chat handler (`bot/handlers/chat.py`) -/

/-- `ChatHandler._user_has_all_curators`: `False` when there is no user
row; otherwise Python `all([...])` over the four `selected_*` columns
(`None` and `""` are falsy). -/
def user_has_all_curators (user : Option User) : Bool :=
  match user with
  | none => false
  | some u =>
    truthyOptStr u.selected_center && truthyOptStr u.selected_business &&
    truthyOptStr u.selected_soul && truthyOptStr u.selected_body

/-- `ChatHandler._get_user_curator`: the `selected_*` column for `sphere`,
`none` for an unknown sphere or a missing user row. -/
def get_user_curator (user : Option User) (sphere : String) : Option String :=
  match user with
  | none => none
  | some u =>
    if sphere == "center" then u.selected_center
    else if sphere == "business" then u.selected_business
    else if sphere == "soul" then u.selected_soul
    else if sphere == "body" then u.selected_body
    else none

/-- The result of sphere resolution inside
`ChatHandler.handle_text_message` (lines 78-107): the stored user row
afterwards (a new topic binding may have been persisted) and the resolved
sphere, if any. -/
structure ResolveResult where
  user : User
  sphere : Option String
deriving DecidableEq, Repr

/-- Sphere resolution of `ChatHandler.handle_text_message`: when the
message carries a (truthy) thread id, first try the newly-created topic
name (persisting the detected binding via `update_user_thread`), then the
stored binding via `get_sphere_by_thread`; without a thread id default to
`"center"`; otherwise resolution fails and the user is asked to retry in a
proper topic.  `new_topic_name` is the name from
`reply_to_message.forum_topic_created`, when present. -/
def resolveSphere (user : User) (chat_id : Int) (message_thread_id : Option Int)
    (new_topic_name : Option String) : ResolveResult :=
  if truthyOptInt message_thread_id then
    let tid := message_thread_id.getD 0
    match detect_sphere_from_topic new_topic_name with
    | some s => ⟨update_user_thread user s tid chat_id, some s⟩
    | none =>
      match get_sphere_by_thread user chat_id message_thread_id with
      | some s => ⟨user, some s⟩
      | none => ⟨user, none⟩
  else
    ⟨user, some "center"⟩

/-- Outcome of `ChatHandler.handle_text_message` as seen by the user. -/
inductive ChatOutcome where
  /-- "выберите наставников для всех сфер" guidance reply -/
  | curatorsNotSelected
  /-- "Не удалось определить сферу" reply: retry in a proper topic -/
  | sphereUndetermined
  /-- "не найден куратор для этой сферы" reply -/
  | curatorMissing
  /-- the AI reply was sent and both turns stored -/
  | replied (text : String)
  /-- the generation call failed; an error reply was sent -/
  | errorReply
deriving DecidableEq, Repr

/-- State and outcome after `ChatHandler.handle_text_message`: the stored
user row, the `messages` table and the user-visible outcome;
`generationCalled` records whether the generation capability was invoked. -/
structure ChatResult where
  user : Option User
  messages : List Message
  outcome : ChatOutcome
  generationCalled : Bool
deriving DecidableEq, Repr

/-- The primary key the database would assign to the next `messages` row. -/
def nextMessageId (msgs : List Message) : Nat :=
  (msgs.foldl (fun a m => max a m.id) 0) + 1

/-- `ChatHandler.handle_text_message`: gate on all four curators being
selected, resolve the sphere (possibly persisting a topic binding), look up
the sphere's curator, build the context payload, invoke the generation
capability `gen` (none = `GenerationError`), and on success append the user
and assistant turns to the `messages` table.  The post-reply summarization
step only touches the `summarizations` table and is elided here. -/
def handle_text_message (gen : String → ContextPayload → Option String)
    (user : Option User) (msgs : List Message) (sums : List Summarization)
    (chat_id : Int) (message_thread_id : Option Int) (new_topic_name : Option String)
    (message_text : String) (now : Nat) : ChatResult :=
  if !user_has_all_curators user then
    ⟨user, msgs, .curatorsNotSelected, false⟩
  else
    match user with
    | none => ⟨none, msgs, .curatorsNotSelected, false⟩
    | some u =>
      let r := resolveSphere u chat_id message_thread_id new_topic_name
      match r.sphere with
      | none => ⟨some r.user, msgs, .sphereUndetermined, false⟩
      | some sphere =>
        let curator := get_user_curator (some r.user) sphere
        if !truthyOptStr curator then ⟨some r.user, msgs, .curatorMissing, false⟩
        else
          let payload := build_sphere_payload msgs sums u.id sphere
          match gen message_text payload with
          | none => ⟨some r.user, msgs, .errorReply, true⟩
          | some ai_response =>
            let nid := nextMessageId msgs
            ⟨some r.user,
             msgs ++ [⟨nid, u.id, sphere, "user", message_text, now⟩,
                      ⟨nid + 1, u.id, sphere, "assistant", ai_response, now⟩],
             .replied ai_response, true⟩

/-! ## Helper lemmas about the `ORDER BY created_at DESC ... first()` fold -/

theorem foldl_later_isSome (t : List Summarization) (b : Summarization) :
    ∃ r, t.foldl laterSummarization (some b) = some r := by
  induction t generalizing b with
  | nil => exact ⟨b, rfl⟩
  | cons s t ih =>
    simp only [List.foldl_cons, laterSummarization]
    split
    · exact ih s
    · exact ih b

theorem lastSummarization_eq_none_iff (sums : List Summarization) (uid : Nat) (sph : String) :
    lastSummarization sums uid sph = none ↔ summariesFor sums uid sph = [] := by
  unfold lastSummarization
  cases h : summariesFor sums uid sph with
  | nil => simp
  | cons a t =>
    simp only [List.foldl_cons, laterSummarization]
    obtain ⟨r, hr⟩ := foldl_later_isSome t a
    simp [hr]

theorem foldl_later_created (t : List Summarization) (b : Summarization) :
    (t.foldl laterSummarization (some b)).map Summarization.created_at =
      t.foldl maxStep (some b.created_at) := by
  induction t generalizing b with
  | nil => rfl
  | cons s t ih =>
    simp only [List.foldl_cons, laterSummarization, maxStep]
    by_cases hc : s.created_at > b.created_at
    · rw [if_pos hc, ih s, Nat.max_eq_right (Nat.le_of_lt hc)]
    · rw [if_neg hc, ih b, Nat.max_eq_left (Nat.le_of_not_lt hc)]

theorem lastSummarization_created (sums : List Summarization) (uid : Nat) (sph : String) :
    (lastSummarization sums uid sph).map Summarization.created_at =
      maxCreatedAt (summariesFor sums uid sph) := by
  unfold lastSummarization maxCreatedAt
  cases summariesFor sums uid sph with
  | nil => rfl
  | cons a t =>
    simp only [List.foldl_cons, laterSummarization, maxStep]
    exact foldl_later_created t a

theorem foldl_later_mem (t : List Summarization) (b r : Summarization)
    (h : t.foldl laterSummarization (some b) = some r) : r = b ∨ r ∈ t := by
  induction t generalizing b with
  | nil => left; cases h; rfl
  | cons s t ih =>
    simp only [List.foldl_cons, laterSummarization] at h
    by_cases hc : s.created_at > b.created_at
    · rw [if_pos hc] at h
      rcases ih s h with h1 | h2
      · right; rw [h1]; exact List.mem_cons_self s t
      · right; exact List.mem_cons_of_mem _ h2
    · rw [if_neg hc] at h
      rcases ih b h with h1 | h2
      · left; exact h1
      · right; exact List.mem_cons_of_mem _ h2

theorem lastSummarization_mem (sums : List Summarization) (uid : Nat) (sph : String)
    (s : Summarization) (h : lastSummarization sums uid sph = some s) :
    s ∈ summariesFor sums uid sph := by
  unfold lastSummarization at h
  cases hf : summariesFor sums uid sph with
  | nil => rw [hf] at h; exact absurd h (by simp)
  | cons a t =>
    rw [hf] at h
    simp only [List.foldl_cons, laterSummarization] at h
    rcases foldl_later_mem t a s h with h1 | h2
    · rw [h1]; exact List.mem_cons_self a t
    · exact List.mem_cons_of_mem _ h2

theorem specCount_of_no_summary (msgs : List Message) (sums : List Summarization)
    (uid : Nat) (sph : String) (hf : summariesFor sums uid sph = []) :
    specUnsummarizedUserCount msgs sums uid sph =
      ((messagesFor msgs uid sph).filter (fun m => m.role == "user")).length := by
  unfold specUnsummarizedUserCount
  congr 1
  apply List.filter_congr
  intro m _
  have hmax : maxCreatedAt (summariesFor sums uid sph) = none := by rw [hf]; rfl
  simp [specAfterLatest, hmax]

theorem specCount_of_summary (msgs : List Message) (sums : List Summarization)
    (uid : Nat) (sph : String) (lastS : Summarization)
    (h : lastSummarization sums uid sph = some lastS) :
    specUnsummarizedUserCount msgs sums uid sph =
      (((messagesFor msgs uid sph).filter (fun m => decide (m.created_at > lastS.created_at))).filter
        (fun m => m.role == "user")).length := by
  have hmax : maxCreatedAt (summariesFor sums uid sph) = some lastS.created_at := by
    have hm := lastSummarization_created sums uid sph
    rw [h] at hm
    simpa using hm.symm
  unfold specUnsummarizedUserCount
  rw [List.filter_filter]
  congr 1
  apply List.filter_congr
  intro m _
  simp [specAfterLatest, hmax]

/-- **C1.** `should_summarize(user_id, sphere)` returns true if and only if
the number of `role='user'` messages created strictly after the latest
existing Summary for `(user, sphere)` — all of that user's messages in the
sphere when no Summary exists — is at least 3 when no prior Summary exists
and at least 10 when a prior Summary exists. -/
theorem should_summarize_iff_threshold (msgs : List Message) (sums : List Summarization)
    (uid : Nat) (sph : String) :
    should_summarize msgs sums uid sph = true ↔
      ((summariesFor sums uid sph = [] ∧ 3 ≤ specUnsummarizedUserCount msgs sums uid sph) ∨
       (summariesFor sums uid sph ≠ [] ∧ 10 ≤ specUnsummarizedUserCount msgs sums uid sph)) := by
  cases h : lastSummarization sums uid sph with
  | none =>
    have hf : summariesFor sums uid sph = [] := (lastSummarization_eq_none_iff sums uid sph).mp h
    have hcnt := specCount_of_no_summary msgs sums uid sph hf
    simp [should_summarize, messagesSinceLastSummarization, h, hf, hcnt,
      FIRST_SUMMARIZATION_THRESHOLD]
  | some lastS =>
    have hne : summariesFor sums uid sph ≠ [] := by
      intro hf
      have h0 := (lastSummarization_eq_none_iff sums uid sph).mpr hf
      rw [h] at h0
      exact Option.noConfusion h0
    have hcnt := specCount_of_summary msgs sums uid sph lastS h
    simp [should_summarize, messagesSinceLastSummarization, h, hne, hcnt,
      REGULAR_SUMMARIZATION_THRESHOLD]

/-- Spec side, C7: `x` is "the latest Summary text" for `(user_id, sphere)`
— the text of a stored Summary whose `created_at` is the greatest, or the
sentinel `"no data"` when the sphere has no Summary. -/
def specLatestSummaryText (sums : List Summarization) (user_id : Nat) (sphere : String)
    (x : String) : Prop :=
  (summariesFor sums user_id sphere = [] ∧ x = "no data") ∨
  (∃ s ∈ summariesFor sums user_id sphere,
    maxCreatedAt (summariesFor sums user_id sphere) = some s.created_at ∧ x = s.text)

theorem get_last_summarization_text_spec (sums : List Summarization) (uid : Nat)
    (sph : String) : specLatestSummaryText sums uid sph (get_last_summarization_text sums uid sph) := by
  unfold get_last_summarization_text
  cases h : lastSummarization sums uid sph with
  | none => exact Or.inl ⟨(lastSummarization_eq_none_iff sums uid sph).mp h, rfl⟩
  | some s =>
    refine Or.inr ⟨s, lastSummarization_mem sums uid sph s h, ?_, rfl⟩
    have hm := lastSummarization_created sums uid sph
    rw [h] at hm
    simpa using hm.symm

theorem get_last_messages_eq_drop (msgs : List Message) (uid : Nat) (sph : String)
    (limit : Nat) :
    get_last_messages msgs uid sph limit =
      (messagesFor msgs uid sph).drop ((messagesFor msgs uid sph).length - limit) := by
  unfold get_last_messages
  rw [← List.rtake_eq_reverse_take_reverse, List.rtake]

/-- **C7.** The assembled context payload carries the latest Summary text
for each of the three non-center spheres (sentinel `"no data"` when a
sphere has none), and the most recent 10 messages of the active sphere in
chronological order, each rendered as `"<Role>: <content>"`, with history
`"no data"` when the active sphere has no messages. -/
theorem build_sphere_payload_spec (msgs : List Message) (sums : List Summarization)
    (uid : Nat) (sph : String) :
    specLatestSummaryText sums uid "soul" (build_sphere_payload msgs sums uid sph).sumSoul ∧
    specLatestSummaryText sums uid "body" (build_sphere_payload msgs sums uid sph).sumBody ∧
    specLatestSummaryText sums uid "business" (build_sphere_payload msgs sums uid sph).sumBusiness ∧
    (messagesFor msgs uid sph = [] → (build_sphere_payload msgs sums uid sph).history = "no data") ∧
    (messagesFor msgs uid sph ≠ [] →
      (build_sphere_payload msgs sums uid sph).history =
        String.intercalate "\n"
          (((messagesFor msgs uid sph).drop ((messagesFor msgs uid sph).length - 10)).map
            renderMessage)) := by
  refine ⟨get_last_summarization_text_spec sums uid "soul",
    get_last_summarization_text_spec sums uid "body",
    get_last_summarization_text_spec sums uid "business", ?_, ?_⟩
  · intro h
    simp [build_sphere_payload, get_last_messages_eq_drop, h]
  · intro h
    have hwin : (messagesFor msgs uid sph).drop ((messagesFor msgs uid sph).length - 10) ≠ [] := by
      have hlen : 0 < (messagesFor msgs uid sph).length := List.length_pos.mpr h
      simp only [ne_eq, List.drop_eq_nil_iff]
      omega
    simp only [build_sphere_payload, get_last_messages_eq_drop]
    rw [if_neg]
    simp only [List.isEmpty_eq_true, List.map_eq_nil_iff]
    exact hwin

/-- Witness for C7: with no stored messages the history field is the
sentinel `"no data"`. -/
theorem build_sphere_payload_spec_witness :
    (build_sphere_payload [] [] 1 "center").history = "no data" :=
  (build_sphere_payload_spec [] [] 1 "center").2.2.2.1 rfl

/-- A baseline `users` row with every nullable column `NULL`, used to build
the concrete rows of the examples below. -/
def baseUser : User :=
  { id := 1, telegram_id := 100, is_onboarding := false, onboarding_step := 0,
    onboarding_answers := [], psychotype := none,
    recommended_center := none, recommended_business := none,
    recommended_soul := none, recommended_body := none,
    selected_center := none, selected_business := none,
    selected_soul := none, selected_body := none,
    chat_id := none, thread_soul := none, thread_body := none,
    thread_business := none, thread_center := none }

/-- **C8.** `detect_sphere_from_topic` is a case-insensitive substring
match against the fixed keyword table `душа→soul, дело→business,
тело→body, штаб→center`, first match winning; it returns `none` when no
keyword matches or the name is absent; `"Душа: вопросы"` maps to `soul`,
`"random"` and `None` to `none`. -/
theorem detect_sphere_from_topic_spec :
    detect_sphere_from_topic none = none ∧
    detect_sphere_from_topic (some "random") = none ∧
    detect_sphere_from_topic (some "Душа: вопросы") = some "soul" ∧
    (∀ name, name ≠ "" → pyIn "душа" (pyLower name) = true →
      detect_sphere_from_topic (some name) = some "soul") ∧
    (∀ name, name ≠ "" → pyIn "душа" (pyLower name) = false →
      pyIn "дело" (pyLower name) = true →
      detect_sphere_from_topic (some name) = some "business") ∧
    (∀ name, name ≠ "" → pyIn "душа" (pyLower name) = false →
      pyIn "дело" (pyLower name) = false → pyIn "тело" (pyLower name) = true →
      detect_sphere_from_topic (some name) = some "body") ∧
    (∀ name, name ≠ "" → pyIn "душа" (pyLower name) = false →
      pyIn "дело" (pyLower name) = false → pyIn "тело" (pyLower name) = false →
      pyIn "штаб" (pyLower name) = true →
      detect_sphere_from_topic (some name) = some "center") ∧
    (∀ name, pyIn "душа" (pyLower name) = false → pyIn "дело" (pyLower name) = false →
      pyIn "тело" (pyLower name) = false → pyIn "штаб" (pyLower name) = false →
      detect_sphere_from_topic (some name) = none) := by
  refine ⟨rfl, by decide, by decide, ?_, ?_, ?_, ?_, ?_⟩
  · intro name h1 h2
    simp [detect_sphere_from_topic, h1, h2]
  · intro name h1 h2 h3
    simp [detect_sphere_from_topic, h1, h2, h3]
  · intro name h1 h2 h3 h4
    simp [detect_sphere_from_topic, h1, h2, h3, h4]
  · intro name h1 h2 h3 h4 h5
    simp [detect_sphere_from_topic, h1, h2, h3, h4, h5]
  · intro name h1 h2 h3 h4
    by_cases h0 : name = "" <;> simp [detect_sphere_from_topic, h0, h1, h2, h3, h4]

/-- Witness for C8: the match really is case-insensitive — the all-caps
name `"ДУША"` detects `soul` via the fourth clause. -/
theorem detect_sphere_from_topic_spec_witness :
    detect_sphere_from_topic (some "ДУША") = some "soul" :=
  detect_sphere_from_topic_spec.2.2.2.1 "ДУША" (by decide) (by decide)

/-- **C10.** For a user whose stored chat id matches and whose per-sphere
thread bindings are all `NULL`, looking up `thread_id = None` returns
`soul` rather than `none`: the lookup compares optional thread ids by
plain equality in the fixed order soul, body, business, center, so an
absent thread id matches the first unset binding. -/
theorem get_sphere_by_thread_none_matches_soul (u : User) (c : Int)
    (h1 : u.chat_id = some c) (h2 : u.thread_soul = none) (h3 : u.thread_body = none)
    (h4 : u.thread_business = none) (h5 : u.thread_center = none) :
    get_sphere_by_thread u c none = some "soul" := by
  simp [get_sphere_by_thread, h1, h2]

/-- Witness for C10 at a concrete user row. -/
theorem get_sphere_by_thread_none_matches_soul_witness :
    get_sphere_by_thread { baseUser with chat_id := some 7 } 7 none = some "soul" :=
  get_sphere_by_thread_none_matches_soul { baseUser with chat_id := some 7 } 7
    rfl rfl rfl rfl rfl

/-- A user stuck at `onboarding_step = 3` with `is_onboarding` still true
(reachable when the completion step raised and was caught). -/
def stuckUser : User := { baseUser with is_onboarding := true, onboarding_step := 3 }

/-- **C4, counterexample.** With 3 questions and `current_step = 3` (so
`current_step ≥ question count`) while `is_onboarding` is true, the claim
says submission fails with `StepOutOfRange` and records nothing; the code
has no such guard: the answer is appended with `question_index = 3`, the
step advances to 4 and completion is re-triggered. -/
theorem handle_answer_no_step_guard :
    stuckUser.is_onboarding = true ∧ 3 ≤ stuckUser.onboarding_step ∧
    handle_answer 3 (some stuckUser) "A" =
      (some { stuckUser with onboarding_answers := [⟨3, "A"⟩], onboarding_step := 4 },
       AnswerOutcome.recorded 4 true) ∧
    (handle_answer 3 (some stuckUser) "A").1 ≠ some stuckUser := by
  refine ⟨rfl, by decide, rfl, by decide⟩

/-- **C4, amended.** Submitting an answer fails with `NotInOnboarding`
(recording nothing) when `is_onboarding` is false, and fails (recording
nothing) when no user row exists; when `is_onboarding` is true the answer
is always appended and the step incremented — there is no `StepOutOfRange`
guard, so this happens even when `current_step ≥ question count`, in which
case completion is simply triggered again. -/
theorem handle_answer_spec (qc : Nat) (u : User) (answer : String) :
    (u.is_onboarding = false →
      handle_answer qc (some u) answer = (some u, AnswerOutcome.notInOnboarding)) ∧
    (u.is_onboarding = true →
      handle_answer qc (some u) answer =
        (some { u with
            onboarding_answers := u.onboarding_answers ++ [⟨u.onboarding_step, answer⟩],
            onboarding_step := u.onboarding_step + 1 },
         AnswerOutcome.recorded (u.onboarding_step + 1)
           (decide (u.onboarding_step + 1 ≥ qc)))) ∧
    handle_answer qc none answer = (none, AnswerOutcome.userNotFound) := by
  refine ⟨fun h => ?_, fun h => ?_, rfl⟩ <;> simp [handle_answer, h]

/-- Witness for the amended C4: a user with `is_onboarding = false` is
rejected with `NotInOnboarding` and nothing is stored. -/
theorem handle_answer_spec_witness :
    handle_answer 3 (some baseUser) "B" = (some baseUser, AnswerOutcome.notInOnboarding) :=
  (handle_answer_spec 3 baseUser "B").1 rfl

/-- A user whose `soul` sphere is bound to thread 5 of chat 1. -/
def soulBoundUser : User := { baseUser with chat_id := some 1, thread_soul := some 5 }

/-- **C5, counterexample.** Rebinding thread 5 (bound to `soul`) to `body`
does not give a pair bound to at most one sphere: `thread_soul` is not
cleared, so after the rebind both `soul` and `body` claim thread 5 and the
lookup still resolves it to the *old* sphere `soul`, not to `body`. -/
theorem update_user_thread_stale_binding :
    get_sphere_by_thread soulBoundUser 1 (some 5) = some "soul" ∧
    (update_user_thread soulBoundUser "body" 5 1).thread_body = some 5 ∧
    (update_user_thread soulBoundUser "body" 5 1).thread_soul = some 5 ∧
    get_sphere_by_thread (update_user_thread soulBoundUser "body" 5 1) 1 (some 5) = some "soul" ∧
    get_sphere_by_thread (update_user_thread soulBoundUser "body" 5 1) 1 (some 5) ≠ some "body" := by
  decide

/-- **C5, amended.** Rebinding the same topic to the same sphere (with the
same chat id) leaves the profile unchanged; rebinding to a different
sphere sets the new sphere's thread column and leaves every other sphere's
column untouched — a previous binding of the same topic id is *not*
cleared, and the lookup resolves a multiply-claimed topic to the first
claimant in the fixed order soul, body, business, center. -/
theorem update_user_thread_spec (u : User) (s s2 : String) (t c : Int)
    (hs : s = "soul" ∨ s = "body" ∨ s = "business" ∨ s = "center") :
    (u.chat_id = some c → threadField u s = some t → update_user_thread u s t c = u) ∧
    threadField (update_user_thread u s t c) s = some t ∧
    (s2 ≠ s → threadField (update_user_thread u s t c) s2 = threadField u s2) ∧
    (u.chat_id = some c → u.thread_soul = some t →
      get_sphere_by_thread u c (some t) = some "soul") := by
  refine ⟨?_, ?_, ?_, fun h1 h2 => by simp [get_sphere_by_thread, h1, h2]⟩
  · rcases hs with rfl | rfl | rfl | rfl
    · intro h1 h2
      have h2' : u.thread_soul = some t := h2
      show ({ u with chat_id := some c, thread_soul := some t } : User) = u
      rw [← h1, ← h2']
    · intro h1 h2
      have h2' : u.thread_body = some t := h2
      show ({ u with chat_id := some c, thread_body := some t } : User) = u
      rw [← h1, ← h2']
    · intro h1 h2
      have h2' : u.thread_business = some t := h2
      show ({ u with chat_id := some c, thread_business := some t } : User) = u
      rw [← h1, ← h2']
    · intro h1 h2
      have h2' : u.thread_center = some t := h2
      show ({ u with chat_id := some c, thread_center := some t } : User) = u
      rw [← h1, ← h2']
  · rcases hs with rfl | rfl | rfl | rfl <;> rfl
  · intro hne
    rcases hs with rfl | rfl | rfl | rfl <;>
      · simp only [update_user_thread, threadField]
        rw [beq_eq_false_iff_ne.mpr hne]
        simp

/-- Witness for the amended C5: rebinding `soul ↦ thread 5` to `soul`
again is a no-op on the stored row. -/
theorem update_user_thread_spec_witness :
    update_user_thread soulBoundUser "soul" 5 1 = soulBoundUser :=
  (update_user_thread_spec soulBoundUser "soul" "body" 5 1 (Or.inl rfl)).1 rfl rfl

/-- **C2.** When the classification result contains all four sphere keys,
completing onboarding stores the psychotype, sets `recommended_*` for
every sphere, pre-selects each `selected_*` equal to the corresponding
`recommended_*`, clears `is_onboarding`, and reports no error. -/
theorem complete_onboarding_success (u : User) (psy : String)
    (recs : List (String × String)) (vc vb vs vbo : String)
    (hc : recs.lookup "center" = some vc) (hb : recs.lookup "business" = some vb)
    (hs : recs.lookup "soul" = some vs) (hbo : recs.lookup "body" = some vbo) :
    completeOnboardingRun false psy recs u =
      ({ u with
          psychotype := some psy,
          recommended_center := some vc, recommended_business := some vb,
          recommended_soul := some vs, recommended_body := some vbo,
          selected_center := some vc, selected_business := some vb,
          selected_soul := some vs, selected_body := some vbo,
          is_onboarding := false }, none) := by
  simp [completeOnboardingRun, completeOnboarding, hc, hb, hs, hbo]

/-- Witness for C2 with a concrete complete classification result. -/
theorem complete_onboarding_success_witness :
    completeOnboardingRun false "P"
        [("center", "vibe"), ("business", "plan"), ("soul", "vibe"), ("body", "plan")]
        stuckUser =
      ({ stuckUser with
          psychotype := some "P",
          recommended_center := some "vibe", recommended_business := some "plan",
          recommended_soul := some "vibe", recommended_body := some "plan",
          selected_center := some "vibe", selected_business := some "plan",
          selected_soul := some "vibe", selected_body := some "plan",
          is_onboarding := false }, none) :=
  complete_onboarding_success stuckUser "P"
    [("center", "vibe"), ("business", "plan"), ("soul", "vibe"), ("body", "plan")]
    "vibe" "plan" "vibe" "plan" rfl rfl rfl rfl

/-- **C6.** When the structured classification result is missing any of
the four sphere keys, completion reports an error and commits no partial
state: the stored user row — psychotype, every `recommended_*` and
`selected_*`, and `is_onboarding` — is exactly what it was, so a user who
was still onboarding remains so. -/
theorem complete_onboarding_incomplete (u : User) (psy : String)
    (recs : List (String × String))
    (h : recs.lookup "center" = none ∨ recs.lookup "business" = none ∨
         recs.lookup "soul" = none ∨ recs.lookup "body" = none) :
    (completeOnboardingRun false psy recs u).1 = u ∧
    ((completeOnboardingRun false psy recs u).2).isSome = true ∧
    (completeOnboardingRun false psy recs u).1.is_onboarding = u.is_onboarding := by
  unfold completeOnboardingRun completeOnboarding
  simp only [Bool.false_eq_true, if_false]
  split_ifs with h1 h2 h3 h4
  · simp
  · simp
  · simp
  · simp
  · exfalso
    rcases h with h | h | h | h
    · exact h1 (by rw [h]; rfl)
    · exact h2 (by rw [h]; rfl)
    · exact h3 (by rw [h]; rfl)
    · exact h4 (by rw [h]; rfl)

/-- Witness for C6: a result with only the `center` key leaves the stored
row untouched. -/
theorem complete_onboarding_incomplete_witness :
    (completeOnboardingRun false "P" [("center", "vibe")] stuckUser).1 = stuckUser :=
  (complete_onboarding_incomplete stuckUser "P" [("center", "vibe")]
    (Or.inr (Or.inl rfl))).1

/-- **C3.** Sphere resolution is evaluated in strict priority order, for
any Telegram-well-formed input (a newly-created topic name only arrives
together with a thread id): (1) a sphere detected from a newly-created
topic name is persisted as the `(chat_id, thread_id)` binding of that
sphere and returned; (2) otherwise the stored binding is used — it is the
unique sphere claiming the thread, and it is honored only when the stored
chat id matches; (3) otherwise a message with no topic resolves to the
default sphere `center`; (4) otherwise no sphere is resolved. -/
theorem resolve_sphere_priority (u : User) (chat_id : Int) (tid : Option Int)
    (nm : Option String) (hwf : nm.isSome = true → truthyOptInt tid = true) :
    (∀ s, detect_sphere_from_topic nm = some s →
      resolveSphere u chat_id tid nm =
        ⟨update_user_thread u s (tid.getD 0) chat_id, some s⟩ ∧
      threadField (update_user_thread u s (tid.getD 0) chat_id) s = some (tid.getD 0) ∧
      (update_user_thread u s (tid.getD 0) chat_id).chat_id = some chat_id) ∧
    (detect_sphere_from_topic nm = none → truthyOptInt tid = true →
      resolveSphere u chat_id tid nm = ⟨u, get_sphere_by_thread u chat_id tid⟩) ∧
    (∀ s, detect_sphere_from_topic nm = none → truthyOptInt tid = true →
      u.chat_id = some chat_id → threadField u s = tid →
      (s = "soul" ∨ s = "body" ∨ s = "business" ∨ s = "center") →
      (∀ s2, (s2 = "soul" ∨ s2 = "body" ∨ s2 = "business" ∨ s2 = "center") →
        threadField u s2 = tid → s2 = s) →
      resolveSphere u chat_id tid nm = ⟨u, some s⟩) ∧
    (u.chat_id ≠ some chat_id → get_sphere_by_thread u chat_id tid = none) ∧
    (truthyOptInt tid = false → resolveSphere u chat_id tid nm = ⟨u, some "center"⟩) ∧
    (detect_sphere_from_topic nm = none → truthyOptInt tid = true →
      get_sphere_by_thread u chat_id tid = none →
      resolveSphere u chat_id tid nm = ⟨u, none⟩) := by
  have hlookup : detect_sphere_from_topic nm = none → truthyOptInt tid = true →
      resolveSphere u chat_id tid nm = ⟨u, get_sphere_by_thread u chat_id tid⟩ := by
    intro hd ht
    simp only [resolveSphere, ht, if_true, hd]
    cases get_sphere_by_thread u chat_id tid <;> rfl
  refine ⟨?_, hlookup, ?_, ?_, ?_, ?_⟩
  · intro s hd
    have ht : truthyOptInt tid = true := by
      apply hwf
      cases nm with
      | none => exact absurd hd (by simp [detect_sphere_from_topic])
      | some _ => rfl
    refine ⟨by simp [resolveSphere, ht, hd], ?_, ?_⟩
    · have hvalid : s = "soul" ∨ s = "body" ∨ s = "business" ∨ s = "center" := by
        cases nm with
        | none => exact absurd hd (by simp [detect_sphere_from_topic])
        | some name =>
          simp only [detect_sphere_from_topic] at hd
          split at hd
          · exact absurd hd (by simp)
          · split_ifs at hd <;> simp_all
      rcases hvalid with rfl | rfl | rfl | rfl <;> rfl
    · rcases s with _ <;> simp [update_user_thread]
      split_ifs <;> rfl
  · intro s hd ht hchat hbind hvalid huniq
    rw [hlookup hd ht]
    have hchat2 : (u.chat_id != some chat_id) = false := by simp [hchat]
    have goal : get_sphere_by_thread u chat_id tid = some s := by
      rcases hvalid with rfl | rfl | rfl | rfl
      · have e1 : (tid == u.thread_soul) = true := by
          rw [beq_iff_eq]; exact (show u.thread_soul = tid from hbind).symm
        simp [get_sphere_by_thread, hchat2, e1]
      · by_cases h1 : u.thread_soul = tid
        · exact absurd (huniq "soul" (Or.inl rfl) h1) (by simp)
        · have e1 : (tid == u.thread_soul) = false :=
            beq_eq_false_iff_ne.mpr fun h => h1 h.symm
          have e2 : (tid == u.thread_body) = true := by
            rw [beq_iff_eq]; exact (show u.thread_body = tid from hbind).symm
          simp [get_sphere_by_thread, hchat2, e1, e2]
      · by_cases h1 : u.thread_soul = tid
        · exact absurd (huniq "soul" (Or.inl rfl) h1) (by simp)
        · by_cases h2 : u.thread_body = tid
          · exact absurd (huniq "body" (Or.inr (Or.inl rfl)) h2) (by simp)
          · have e1 : (tid == u.thread_soul) = false :=
              beq_eq_false_iff_ne.mpr fun h => h1 h.symm
            have e2 : (tid == u.thread_body) = false :=
              beq_eq_false_iff_ne.mpr fun h => h2 h.symm
            have e3 : (tid == u.thread_business) = true := by
              rw [beq_iff_eq]; exact (show u.thread_business = tid from hbind).symm
            simp [get_sphere_by_thread, hchat2, e1, e2, e3]
      · by_cases h1 : u.thread_soul = tid
        · exact absurd (huniq "soul" (Or.inl rfl) h1) (by simp)
        · by_cases h2 : u.thread_body = tid
          · exact absurd (huniq "body" (Or.inr (Or.inl rfl)) h2) (by simp)
          · by_cases h3 : u.thread_business = tid
            · exact absurd (huniq "business" (Or.inr (Or.inr (Or.inl rfl))) h3) (by simp)
            · have e1 : (tid == u.thread_soul) = false :=
                beq_eq_false_iff_ne.mpr fun h => h1 h.symm
              have e2 : (tid == u.thread_body) = false :=
                beq_eq_false_iff_ne.mpr fun h => h2 h.symm
              have e3 : (tid == u.thread_business) = false :=
                beq_eq_false_iff_ne.mpr fun h => h3 h.symm
              have e4 : (tid == u.thread_center) = true := by
                rw [beq_iff_eq]; exact (show u.thread_center = tid from hbind).symm
              simp [get_sphere_by_thread, hchat2, e1, e2, e3, e4]
    rw [goal]
  · intro hchat
    simp [get_sphere_by_thread, hchat]
  · intro ht
    simp [resolveSphere, ht]
  · intro hd ht hnone
    rw [hlookup hd ht, hnone]

/-- Witness for C3: a top-level message (no thread, no topic name)
resolves to the default sphere `center` without touching the profile. -/
theorem resolve_sphere_priority_witness :
    resolveSphere baseUser 1 none none = ⟨baseUser, some "center"⟩ :=
  (resolve_sphere_priority baseUser 1 none none (by decide)).2.2.2.2.1 rfl

/-- **C9.** Handling an inbound text message invokes generation and
persists messages only when the user has a selected curator in *all four*
spheres simultaneously: if any single `selected_*` is unset the handler
answers with the guidance reply, makes no generation call and writes no
Message — a missing curator in an inactive sphere blocks conversation in
the active sphere too. -/
theorem handle_text_message_curator_gate (gen : String → ContextPayload → Option String)
    (user : Option User) (msgs : List Message) (sums : List Summarization)
    (chat_id : Int) (tid : Option Int) (nm : Option String) (text : String) (now : Nat) :
    (user_has_all_curators user = false →
      handle_text_message gen user msgs sums chat_id tid nm text now =
        ⟨user, msgs, ChatOutcome.curatorsNotSelected, false⟩) ∧
    ((handle_text_message gen user msgs sums chat_id tid nm text now).generationCalled = true →
      user_has_all_curators user = true) ∧
    (∀ u, user = some u →
      (truthyOptStr u.selected_center = false ∨ truthyOptStr u.selected_business = false ∨
       truthyOptStr u.selected_soul = false ∨ truthyOptStr u.selected_body = false) →
      handle_text_message gen user msgs sums chat_id tid nm text now =
        ⟨user, msgs, ChatOutcome.curatorsNotSelected, false⟩ ∧
      user_has_all_curators user = false) := by
  have gate : user_has_all_curators user = false →
      handle_text_message gen user msgs sums chat_id tid nm text now =
        ⟨user, msgs, ChatOutcome.curatorsNotSelected, false⟩ := by
    intro h
    cases user with
    | none => rfl
    | some u => simp [handle_text_message, h]
  refine ⟨gate, ?_, ?_⟩
  · intro hgen
    by_cases hg : user_has_all_curators user = true
    · exact hg
    · rw [gate (Bool.not_eq_true _ ▸ Bool.of_not_eq_true hg)] at hgen
      exact absurd hgen (by simp)
  · intro u hu hdisj
    have hg : user_has_all_curators user = false := by
      subst hu
      rcases hdisj with h | h | h | h <;> simp [user_has_all_curators, h]
    exact ⟨gate hg, hg⟩

/-- A user who selected a curator for `center` but not for `business`. -/
def partialCuratorUser : User := { baseUser with selected_center := some "vibe" }

/-- Witness for C9: the missing `business` curator blocks a plain direct
message (which would route to the active sphere `center`, where a curator
*is* selected): guidance reply, no generation, no stored messages. -/
theorem handle_text_message_curator_gate_witness :
    handle_text_message (fun _ _ => some "reply") (some partialCuratorUser) [] [] 1 none none
        "hi" 0 =
      ⟨some partialCuratorUser, [], ChatOutcome.curatorsNotSelected, false⟩ :=
  ((handle_text_message_curator_gate (fun _ _ => some "reply") (some partialCuratorUser)
    [] [] 1 none none "hi" 0).2.2 partialCuratorUser rfl (Or.inr (Or.inl rfl))).1

end Sborka
